import Mathlib

/-!
Verification development for the surveillance-camera supervision engine.

The definitions below are a shallow embedding of the Python modules
`streaming.py`, `recording.py`, `ffmpeg_utils.py`, `fs_utils.py`,
`camera_utils.py` and `config.py`.  Pure command builders become Lean
functions over strings; the stateful supervisors become functions over
explicit state records (the module-level tables), with external effects
(child processes, the filesystem, HTTP probes, psutil samples) supplied
as oracle parameters.  Sleeps are recorded as explicit duration lists so
that timing claims can be stated.  Machine integers do not overflow in
the modelled ranges, so `Nat`/`Int`/`Rat` are used directly.
-/

/-- Outcome of a Python expression: a value, or a raised exception. -/
inductive PyResult (α : Type) where
  | ok (a : α)
  | exn
deriving DecidableEq, Repr

/-- Camera descriptor as parsed by `camera_utils.read_config`:
`id,name,rtsp_url[,enabled]`, with `enabled` defaulting to 1. -/
structure Camera where
  id : String
  name : String
  rtsp_url : String
  enabled : Int
deriving DecidableEq, Repr

/-- Lookup in an association list keyed by camera id / path
(models Python `dict[key]` / `dict.get(key)`). -/
def alookup {α : Type} (l : List (String × α)) (k : String) : Option α :=
  (l.find? (fun p => p.1 == k)).map (fun p => p.2)

/-- Remove a key from an association list (models `del d[k]` / `d.pop(k)`). -/
def aerase {α : Type} (l : List (String × α)) (k : String) : List (String × α) :=
  l.filter (fun p => p.1 != k)

/-- Set a key in an association list (models `d[k] = v`). -/
def aset {α : Type} (l : List (String × α)) (k : String) (v : α) : List (String × α) :=
  (k, v) :: aerase l k

/-- Configuration defaults from `config.py` (environment overrides are
noted in the source; the defaults are modelled). -/
def MAX_RESTART_COUNT : Nat := 5

/-- Default `RESTART_COOLDOWN` (seconds) from `streaming.py`. -/
def RESTART_COOLDOWN : Nat := 30

/-- Default `MIN_DISK_SPACE_GB` from `config.py`. -/
def MIN_DISK_SPACE_GB : Nat := 1

/-- `HLS_PLAYLIST_SIZE` from `config.py` (not environment-overridable). -/
def HLS_PLAYLIST_SIZE : Nat := 48

/-- Default `FFMPEG_PATH` from `config.py`. -/
def FFMPEG_PATH : String := "ffmpeg"

/-- The module-level streaming tables of `streaming.py`:
`streaming_processes` (camera id to child handle, the handle abstracted
to the id set), `hls_last_update`, `m3u8_last_size`, `restart_counts`,
and the `active_streams_count` counter. -/
structure StreamTables where
  streaming_processes : List String
  hls_last_update : List String
  m3u8_last_size : List String
  restart_counts : List (String × Nat)
  active_streams_count : Nat
deriving DecidableEq, Repr

/-- `streaming.cleanup_camera_resources` (lines 722-757): under the lock,
if the camera has a session, terminate it, delete the entry and decrement
the active count with a floor of 0 (`max(0, count - 1)` is `Nat`
subtraction); then drop the camera from the three auxiliary tables.
The trailing `kill_ffmpeg_processes(camera_id)` (positional, valid) and
`cleanup_old_segments` calls touch no table. -/
def cleanup_camera_resources (st : StreamTables) (c : String) : StreamTables :=
  let st1 := if st.streaming_processes.contains c then
      { st with streaming_processes := st.streaming_processes.filter (fun x => x != c),
                active_streams_count := st.active_streams_count - 1 }
    else st
  { st1 with hls_last_update := st1.hls_last_update.filter (fun x => x != c),
             m3u8_last_size := st1.m3u8_last_size.filter (fun x => x != c),
             restart_counts := aerase st1.restart_counts c }

/-- Parameter names accepted by `ffmpeg_utils.kill_ffmpeg_processes`
(line 118): `def kill_ffmpeg_processes(camera_id=None, pid=None)`. -/
def kill_ffmpeg_processes_params : List String := ["camera_id", "pid"]

/-- Keyword arguments used by the call at `streaming.py` line 202:
`kill_ffmpeg_processes(camera_id=..., process_type='hls')`. -/
def start_streaming_kill_kwargs : List String := ["camera_id", "process_type"]

/-- Python keyword-argument binding: a call binds iff every keyword names
a declared parameter; otherwise `TypeError` is raised at the call. -/
def bindKwargs (params kwargs : List String) : Bool :=
  kwargs.all (fun k => params.contains k)

/-- External events observed while launching one HLS encoder. -/
structure LaunchEnv where
  process_starts : Bool
  playlist_appears : Bool
  process_exits_during_wait : Bool
deriving DecidableEq, Repr

/-- `streaming.start_streaming_process` (lines 179-394).  The body is one
`try` block whose `except` (lines 389-394) calls
`cleanup_camera_resources` and returns `False`.  The first call after the
directory/log-path setup is line 202,
`kill_ffmpeg_processes(camera_id=..., process_type='hls')`; the callee
declares only `camera_id` and `pid`, so the keyword binding fails and the
raised `TypeError` lands in the `except` branch.  The remainder of the
body (delete the `.ts` files, start the encoder, wait for the playlist,
record the session, reset the restart counter, spawn the two monitor
threads, return `True`) is translated in the other branch, which the
running code never reaches. -/
def start_streaming_process (c : Camera) (env : LaunchEnv) (st : StreamTables) :
    Bool × StreamTables :=
  if bindKwargs kill_ffmpeg_processes_params start_streaming_kill_kwargs then
    -- lines 242-251: delete every .ts file under the camera tmp directory
    -- lines 254-263: start the encoder; a dead process fails the launch
    if !env.process_starts then (false, cleanup_camera_resources st c.id)
    else
      -- lines 292-303: record the session, seed the trackers, reset the counter
      let st1 : StreamTables :=
        { streaming_processes := c.id :: st.streaming_processes.filter (fun x => x != c.id),
          hls_last_update := c.id :: st.hls_last_update.filter (fun x => x != c.id),
          m3u8_last_size := c.id :: st.m3u8_last_size.filter (fun x => x != c.id),
          restart_counts := aset st.restart_counts c.id 0,
          active_streams_count := st.active_streams_count }
      -- lines 305-366: wait up to 30 s for the playlist; an encoder exit
      -- during the wait deletes the session entry and fails
      if env.process_exits_during_wait then
        (false, { st1 with streaming_processes := st1.streaming_processes.filter (fun x => x != c.id) })
      else
        -- lines 368-387: spawn monitor_streaming_process and
        -- monitor_hls_updates, return True
        (true, st1)
  else
    -- TypeError from line 202, caught at line 389: cleanup and False
    (false, cleanup_camera_resources st c.id)

/-- `streaming.get_or_start_streaming` (lines 63-91): a camera whose
`enabled` field is not 1 is refused outright; a camera that already has a
session is acknowledged; otherwise the camera is appended to the
streaming queue (the worker-thread startup has no table effect) and the
enqueue is reported as success. -/
def get_or_start_streaming (camera : Camera) (st : StreamTables)
    (q : List Camera) : Bool × List Camera :=
  if camera.enabled != 1 then (false, q)
  else if st.streaming_processes.contains camera.id then (true, q)
  else (true, q ++ [camera])

/-- `camera_utils.get_camera_by_id` (lines 184-199) over the parsed
configuration: first camera with the requested id. -/
def get_camera_by_id (cfg : List Camera) (camera_id : String) : Option Camera :=
  cfg.find? (fun cam => cam.id == camera_id)

/-- Result of one restart request: reported success, the streaming
tables, the streaming queue, and the sleeps performed (seconds). -/
structure RestartResult where
  ok : Bool
  tables : StreamTables
  queue : List Camera
  slept : List Nat
deriving DecidableEq, Repr

/-- `streaming.restart_streaming` (lines 396-453).  Increment the restart
ledger for the camera (lines 410-414); if the new count exceeds
`MAX_RESTART_COUNT`, sleep `RESTART_COOLDOWN * (count - max + 1)` capped
at 300 s (lines 417-421) - the counter is not reset on this path.  Then
terminate and drop an existing session, decrementing the active count
(lines 426-437), run the positional kill-all for the camera (line 440,
no table effect), look up the descriptor, and delegate to
`get_or_start_streaming` (lines 443-449). -/
def restart_streaming (cfg : List Camera) (st : StreamTables)
    (q : List Camera) (camera_id : String) : RestartResult :=
  let cnt := ((alookup st.restart_counts camera_id).getD 0) + 1
  let st1 := { st with restart_counts := aset st.restart_counts camera_id cnt }
  let sleeps := if cnt > MAX_RESTART_COUNT
    then [min (RESTART_COOLDOWN * (cnt - MAX_RESTART_COUNT + 1)) 300]
    else []
  let st2 := if st1.streaming_processes.contains camera_id then
      { st1 with streaming_processes := st1.streaming_processes.filter (fun x => x != camera_id),
                 active_streams_count := st1.active_streams_count - 1 }
    else st1
  match get_camera_by_id cfg camera_id with
  | none => ⟨false, st2, q, sleeps⟩
  | some cam =>
      let r := get_or_start_streaming cam st2 q
      ⟨r.1, st2, r.2, sleeps⟩

/-- Ledger, cooldown and cleanup effect of `restart_camera_stream`
(lines 660-704): increment the restart ledger (lines 664-667); if the
new count exceeds `MAX_RESTART_COUNT`, sleep a fixed
`RESTART_COOLDOWN * 2` = 60 s and reset the counter to 1 (lines
673-678); if the camera still has a session, terminate it and run
`cleanup_camera_resources` - which also deletes the ledger entry -
(lines 681-701); pause 1 s (line 704).  Returns the updated tables and
the sleeps. -/
def restart_camera_stream_state (st : StreamTables) (camera_id : String) :
    StreamTables × List Nat :=
  let cnt := ((alookup st.restart_counts camera_id).getD 0) + 1
  let st1 := { st with restart_counts := aset st.restart_counts camera_id cnt }
  let stage := if cnt > MAX_RESTART_COUNT
    then ({ st1 with restart_counts := aset st1.restart_counts camera_id 1 },
          [RESTART_COOLDOWN * 2])
    else (st1, [])
  let st2 := if stage.1.streaming_processes.contains camera_id
    then cleanup_camera_resources stage.1 camera_id
    else stage.1
  (st2, stage.2 ++ [1])

/-- `streaming.restart_camera_stream` (lines 650-720): after the ledger,
cooldown and cleanup effects, look up the descriptor; a missing or
disabled camera is refused, otherwise the camera is re-enqueued (lines
707-716). -/
def restart_camera_stream (cfg : List Camera) (st : StreamTables)
    (q : List Camera) (camera_id : String) : RestartResult :=
  let s := restart_camera_stream_state st camera_id
  match get_camera_by_id cfg camera_id with
  | none => ⟨false, s.1, q, s.2⟩
  | some cam =>
      if cam.enabled != 1 then ⟨false, s.1, q, s.2⟩
      else ⟨true, s.1, q ++ [cam], s.2⟩

/-- `streaming.stop_all_streaming` (lines 1027-1059): terminate every
session - each terminate wrapped in its own `try`, so a raising terminate
changes nothing (`termRaises` records which would raise) - then clear the
four tables, run kill-all inside `try`, and force the active count to 0.
Returns `True`. -/
def stop_all_streaming (st : StreamTables) (termRaises : String → Bool) :
    Bool × StreamTables :=
  let _ := st.streaming_processes.map (fun c => !(termRaises c))
  let st1 : StreamTables :=
    { streaming_processes := [], hls_last_update := [], m3u8_last_size := [],
      restart_counts := [], active_streams_count := st.active_streams_count }
  (true, { st1 with active_streams_count := 0 })

/-- Default `BASE_PATH` from `config.py`. -/
def BASE_PATH : String := "D:\\laragon\\www\\system\\cam"

/-- One entry of `recording.recording_processes`: the child handle is
abstracted away; the output path, source url and hls flag are kept. -/
structure RecInfo where
  file_path : String
  url : String
  hls : Bool
deriving DecidableEq, Repr

/-- The module-level recording tables of `recording.py`:
`recording_processes` and `recording_start_times` (start times as an
abstract timestamp). -/
structure RecTables where
  recording_processes : List (String × RecInfo)
  recording_start_times : List (String × Int)
deriving DecidableEq, Repr

/-- The record volume, path to file size in bytes. -/
abbrev Disk : Type := List (String × Nat)

/-- How `stop_recording` disposed of the output file. -/
inductive Disposal where
  | deletedIncomplete
  | deletedEmpty
  | finalized
  | missing
  | skipped
deriving DecidableEq, Repr

/-- Result of one `stop_recording` call: the reported flag, the updated
tables, the updated record volume, and the file disposal taken. -/
structure StopRecResult where
  ok : Bool
  tables : RecTables
  disk : Disk
  disposal : Disposal
deriving DecidableEq, Repr

/-- `recording.stop_recording` (lines 222-293).  The session is popped
and its start time deleted before anything can fail (lines 234-237).
With no session the function logs and returns `False`.  Otherwise the
`try` block runs `terminate_process` - which catches every exception
internally (`ffmpeg_utils.py` lines 502-616) - then inspects the output
file: a file below 1 MiB (including size 0) is deleted as incomplete
(lines 255-261), a larger file is finalized in place (lines 262-265),
the `else` size-0 delete at lines 266-272 being unreachable, and a
missing file is only logged (lines 273-274).  `fsErr` models a raising
filesystem call inside the `try`, caught at line 287 with return
`False`. -/
def stop_recording (camera_id : String) (st : RecTables) (disk : Disk)
    (fsErr : Bool) : StopRecResult :=
  let st1 : RecTables :=
    { recording_processes := aerase st.recording_processes camera_id,
      recording_start_times := aerase st.recording_start_times camera_id }
  match alookup st.recording_processes camera_id with
  | none => ⟨false, st1, disk, Disposal.skipped⟩
  | some info =>
      if fsErr then ⟨false, st1, disk, Disposal.skipped⟩
      else
        match alookup disk info.file_path with
        | none => ⟨true, st1, disk, Disposal.missing⟩
        | some size =>
            if size < 1024 * 1024 then
              ⟨true, st1, aerase disk info.file_path, Disposal.deletedIncomplete⟩
            else if size > 0 then
              ⟨true, st1, disk, Disposal.finalized⟩
            else
              ⟨true, st1, aerase disk info.file_path, Disposal.deletedEmpty⟩

/-- One iteration of the stop loop of `stop_all_recordings` (lines
648-661): stop the camera and accumulate the success flag. -/
def stopAllStep (fsErr : String → Bool) (acc : Bool × RecTables × Disk)
    (c : String) : Bool × RecTables × Disk :=
  let s := stop_recording c acc.2.1 acc.2.2 (fsErr c)
  (acc.1 && s.ok, s.tables, s.disk)

/-- `recording.stop_all_recordings` (lines 630-764).  Snapshot the
session keys; with none, return `True` immediately (lines 642-644).
Otherwise stop each in turn (lines 648-661); the forced-stop retry for
failures (lines 664-690) looks the already-popped entries up again and
finds nothing; the post-wait remaining check (lines 693-739) sees an
empty map; the `tasklist`/`taskkill` pass (lines 741-755) touches no
table; and the final clear (lines 757-761) fires only when
`recording_processes` is still non-empty. -/
def stop_all_recordings (st : RecTables) (disk : Disk)
    (fsErr : String → Bool) : Bool × RecTables × Disk :=
  let camera_ids := st.recording_processes.map (fun p => p.1)
  if camera_ids.isEmpty then (true, st, disk)
  else
    let r := camera_ids.foldl (stopAllStep fsErr) (true, st, disk)
    let t2 := if !r.2.1.recording_processes.isEmpty
      then ({ recording_processes := [], recording_start_times := [] } : RecTables)
      else r.2.1
    (r.1, t2, r.2.2)

/-- `fs_utils.get_free_space` (lines 50-99): after the fallback chain a
resolved path either exists or not; with an existing path the psutil
query returns its byte count, a non-existent path returns 0, and any
raised exception is caught and 1 GiB (1024^3 bytes) returned. -/
def get_free_space (resolvedExists : Bool) (query : PyResult Nat) : Nat :=
  match query with
  | PyResult.exn => 1024 * 1024 * 1024
  | PyResult.ok b => if resolvedExists then b else 0

/-- External events observed while starting one recording. -/
structure RecEnv where
  resolved_path_exists : Bool
  free_space_query : PyResult Nat
  hls_head_ok : Bool
  rtsp_ok : Nat → Bool
  alive_after_1s : Bool
  alive_after_wait : Bool

/-- `recording.check_disk_space` (lines 789-816): free space converted to
GiB by true division and compared with `MIN_DISK_SPACE_GB`. -/
def check_disk_space (env : RecEnv) : Bool :=
  let available_gb : ℚ :=
    (get_free_space env.resolved_path_exists env.free_space_query : ℚ) /
      (1024 * 1024 * 1024)
  if available_gb < (MIN_DISK_SPACE_GB : ℚ) then false else true

/-- Output path used by `start_new_recording` (lines 105-109):
`<BASE_PATH>\record\<id>\<id>_<timestamp>.mp4`. -/
def record_file_path (camera_id timestamp : String) : String :=
  BASE_PATH ++ "\\record\\" ++ camera_id ++ "\\" ++ camera_id ++ "_" ++ timestamp ++ ".mp4"

/-- `recording.start_new_recording` (lines 79-201).  Stop a lingering
session (lines 94-97); refuse on the GiB disk check (lines 100-103);
probe the local HLS playlist with a HEAD request, any exception counting
as unavailable (lines 112-124); without HLS, retry the RTSP probe up to
5 times (lines 131-150); launch the encoder and poll after 1 s - a dead
child fails (lines 158-198); a live child is recorded in both tables,
and only the second poll after a further 0.5 s decides the returned
flag, the dead-on-second-poll branch leaving the fresh entries in
place.  No field of any camera descriptor is consulted. -/
def start_new_recording (camera_id rtsp_url timestamp : String)
    (st : RecTables) (disk : Disk) (env : RecEnv) (now : Int) :
    Bool × RecTables × Disk :=
  let s0 := if (alookup st.recording_processes camera_id).isSome
    then (let r := stop_recording camera_id st disk false; (r.tables, r.disk))
    else (st, disk)
  if !check_disk_space env then (false, s0.1, s0.2)
  else
    let file_path := record_file_path camera_id timestamp
    let use_hls := env.hls_head_ok
    if !use_hls && !((List.range 5).any (fun k => env.rtsp_ok (k + 1))) then
      (false, s0.1, s0.2)
    else
      if !env.alive_after_1s then (false, s0.1, s0.2)
      else
        let st1 : RecTables :=
          { recording_processes :=
              aset s0.1.recording_processes camera_id ⟨file_path, rtsp_url, use_hls⟩,
            recording_start_times := aset s0.1.recording_start_times camera_id now }
        (env.alive_after_wait, st1, s0.2)

/-- `recording.start_recording` (lines 24-77).  Stop an existing session
and wait 3 s (lines 39-43); ensure the record directory; raise when the
free-space query reports fewer bytes than `MIN_DISK_SPACE_GB` GiB (lines
49-58, re-raised by the outer handler at lines 74-77); otherwise run
`start_new_recording` - its boolean result is not examined - spawn the
duration monitor, and return `True`.  The function receives only the
camera id and RTSP url: the `enabled` flag of the camera descriptor is
never read. -/
def start_recording (camera_id rtsp_url timestamp : String)
    (st : RecTables) (disk : Disk) (env : RecEnv) (now : Int) :
    PyResult (Bool × RecTables × Disk) :=
  let s0 := if (alookup st.recording_processes camera_id).isSome
    then (let r := stop_recording camera_id st disk false; (r.tables, r.disk))
    else (st, disk)
  let required_space := 1024 * 1024 * 1024 * MIN_DISK_SPACE_GB
  let available_space := get_free_space env.resolved_path_exists env.free_space_query
  if available_space < required_space then PyResult.exn
  else
    let r := start_new_recording camera_id rtsp_url timestamp s0.1 s0.2 env now
    PyResult.ok (true, r.2.1, r.2.2)

/-- Observable actions of one load-shedding pass of the resource
monitor: a torn-down session, or a sleep in seconds. -/
inductive ShedEvent where
  | term (camera_id : String)
  | pause (secs : Nat)
deriving DecidableEq, Repr

/-- The shedding loop of `streaming.monitor_system_resources` (lines
1002-1018): walk the session list; stop after 5 tear-downs; each
tear-down is followed by a 5 s sleep and a fresh CPU sample (`resample k`
is the sample taken after the k-th tear-down, counting from 0), and a
sample below 70 ends the pass. -/
def shedLoop : List String → Nat → (Nat → ℚ) → List ShedEvent
  | [], _, _ => []
  | c :: rest, count, resample =>
      if count ≥ 5 then []
      else
        if resample count < 70 then [ShedEvent.term c, ShedEvent.pause 5]
        else ShedEvent.term c :: ShedEvent.pause 5 :: shedLoop rest (count + 1) resample

/-- One pass of `streaming.monitor_system_resources` (lines 983-1021)
after sampling, restricted to its tear-down effects: when the sampled CPU
or the sampled memory exceeds 90 and more than 5 sessions exist, the
shedding loop runs; otherwise nothing is torn down. -/
def monitor_system_resources_pass (cpu mem : ℚ) (procs : List String)
    (resample : Nat → ℚ) : List ShedEvent :=
  if cpu > 90 ∨ mem > 90 then
    if procs.length > 5 then shedLoop procs 0 resample else []
  else []

/-- Number of tear-downs among the recorded events. -/
def termCount (events : List ShedEvent) : Nat :=
  (events.filter (fun e => match e with | ShedEvent.term _ => true | _ => false)).length

/-- Every tear-down is immediately followed by a pause of at least 5 s. -/
def termsPaused : List ShedEvent → Bool
  | [] => true
  | ShedEvent.term _ :: ShedEvent.pause n :: rest => decide (5 ≤ n) && termsPaused rest
  | ShedEvent.term _ :: _ => false
  | ShedEvent.pause _ :: rest => termsPaused rest

/-- Whitespace characters stripped by Python `str.strip`. -/
def pyIsSpace (c : Char) : Bool :=
  c == ' ' || c == '\t' || c == '\n' || c == '\r'

/-- Drop leading whitespace from a character list. -/
def dropLeadingWs : List Char → List Char
  | [] => []
  | c :: rest => if pyIsSpace c then dropLeadingWs rest else c :: rest

/-- Python `str.strip()`: remove leading and trailing whitespace. -/
def pyStrip (s : String) : String :=
  ⟨(dropLeadingWs (dropLeadingWs s.data).reverse).reverse⟩

/-- Whether the first reversed character list starts with the second. -/
def revMatches : List Char → List Char → Bool
  | _, [] => true
  | [], _ :: _ => false
  | a :: as, b :: bs => a == b && revMatches as bs

/-- Python `str.endswith`. -/
def pyEndsWith (s suffix : String) : Bool :=
  revMatches s.data.reverse suffix.data.reverse

/-- Character class of Windows path separators (`ntpath` treats both). -/
def isSep (c : Char) : Bool := c == '\\' || c == '/'

/-- `os.path.basename`: the part after the last separator. -/
def basename (s : String) : String :=
  ⟨(s.data.reverse.takeWhile (fun c => !isSep c)).reverse⟩

/-- `os.path.dirname` for single-separator paths: the part before the
last separator, empty when there is none. -/
def dirname (s : String) : String :=
  match s.data.reverse.dropWhile (fun c => !isSep c) with
  | [] => ""
  | _ :: rest => ⟨rest.reverse⟩

/-- Helper for `splitextStem`: scan the reversed characters for the
extension dot, failing on a separator or the end. -/
def revExtStem : List Char → Option (List Char)
  | [] => none
  | c :: rest =>
      if c == '.' then some rest
      else if isSep c then none
      else revExtStem rest

/-- First component of `os.path.splitext` for names carrying a
non-leading extension dot, as produced by the supervisors
(`<camera_id>.m3u8`). -/
def splitextStem (s : String) : String :=
  match revExtStem s.data.reverse with
  | some rest => ⟨rest.reverse⟩
  | none => s

/-- `os.path.join` on Windows for a relative second component. -/
def joinPath (d name : String) : String :=
  if d == "" then name
  else
    match d.data.getLast? with
    | some c => if isSep c then d ++ name else d ++ "\\" ++ name
    | none => d ++ "\\" ++ name

/-- `ffmpeg_utils.get_hls_streaming_command` (lines 618-679): the full
HLS encoder argv for the given input, output playlist path, segment
length and buffer size. -/
def get_hls_streaming_command (input_url output_path : String)
    (segment_time : Nat) (buffer_size : String) : List String :=
  let output_dir := dirname output_path
  let filename := splitextStem (basename output_path)
  [FFMPEG_PATH,
   "-rtsp_transport", "tcp",
   "-buffer_size", buffer_size,
   "-max_delay", "100000",
   "-analyzeduration", "1000000",
   "-probesize", "1000000",
   "-fflags", "+genpts+discardcorrupt+igndts+ignidx+flush_packets",
   "-err_detect", "ignore_err",
   "-avoid_negative_ts", "make_zero",
   "-use_wallclock_as_timestamps", "1",
   "-thread_queue_size", "512",
   "-flags", "+global_header",
   "-i", input_url,
   "-c:v", "libx264",
   "-preset", "veryfast",
   "-tune", "zerolatency",
   "-c:a", "aac",
   "-b:a", "128k",
   "-ar", "44100",
   "-ac", "2",
   "-async", "1",
   "-vsync", "cfr",
   "-fps_mode", "cfr",
   "-force_key_frames", "expr:gte(t,n_forced*" ++ toString segment_time ++ ")",
   "-sc_threshold", "0",
   "-g", toString (segment_time * 30),
   "-movflags", "empty_moov+omit_tfhd_offset+frag_keyframe+default_base_moof",
   "-hls_time", toString segment_time,
   "-hls_list_size", toString HLS_PLAYLIST_SIZE,
   "-hls_flags", "delete_segments+independent_segments+split_by_time",
   "-hls_segment_type", "mpegts",
   "-hls_segment_filename", joinPath output_dir (filename ++ "-%05d.ts"),
   "-hls_start_number_source", "datetime",
   "-hls_allow_cache", "0",
   "-start_number", "1",
   "-muxdelay", "0",
   "-muxpreload", "0",
   "-max_muxing_queue_size", "4096",
   "-f", "hls",
   "-y",
   output_path]

/-- Default `TMP_PATH` from `config.py`. -/
def TMP_PATH : String := BASE_PATH ++ "\\tmp"

/-- Playlist path built by `start_streaming_process` (line 199):
`os.path.join(TMP_PATH, id, id + ".m3u8")` with forward slashes replaced
by backslashes. -/
def hls_path (camera_id : String) : String :=
  TMP_PATH ++ "\\" ++ camera_id ++ "\\" ++ camera_id ++ ".m3u8"

/-- The HLS encoder argv built by the launch sequence
(`start_streaming_process` lines 219-229): segment time hardcoded to 2
and buffer size "32768k" for every camera. -/
def launch_hls_command (camera : Camera) : List String :=
  get_hls_streaming_command camera.rtsp_url (hls_path camera.id) 2 "32768k"

/-- Local HLS playlist URL probed by the recording command builder
(`ffmpeg_utils.py` line 748). -/
def hls_url_for (camera_id : String) : String :=
  "http://localhost:5000/system/cam/tmp/" ++ camera_id ++ "/" ++ camera_id ++ ".m3u8"

/-- The HLS-branch recording argv (`ffmpeg_utils.py` lines 766-788). -/
def hls_record_command (cid output_path : String) : List String :=
  ["ffmpeg",
   "-protocol_whitelist", "file,http,https,tcp,tls",
   "-hwaccel", "cuda",
   "-c:v", "h264_cuvid",
   "-i", hls_url_for cid,
   "-c:v", "h264_nvenc",
   "-preset", "fast",
   "-r", "30",
   "-c:a", "aac",
   "-b:a", "128k",
   "-ar", "44100",
   "-ac", "2",
   "-max_muxing_queue_size", "2048",
   "-fflags", "+genpts+discardcorrupt+igndts",
   "-avoid_negative_ts", "make_zero",
   "-start_at_zero",
   "-fps_mode", "cfr",
   "-async", "1",
   "-movflags", "+faststart+frag_keyframe",
   "-y",
   output_path]

/-- The direct-RTSP recording argv (`ffmpeg_utils.py` lines 792-821). -/
def rtsp_record_command (rtsp_url output_path : String) : List String :=
  ["ffmpeg",
   "-rtsp_transport", "tcp",
   "-hwaccel", "cuda",
   "-c:v", "h264_cuvid",
   "-analyzeduration", "10000000",
   "-probesize", "5000000",
   "-buffer_size", "30720k",
   "-use_wallclock_as_timestamps", "1",
   "-timeout", "10000000",
   "-rw_timeout", "10000000",
   "-xerror", "",
   "-i", rtsp_url,
   "-c:v", "h264_nvenc",
   "-preset", "fast",
   "-r", "30",
   "-c:a", "aac",
   "-b:a", "128k",
   "-ar", "44100",
   "-ac", "2",
   "-max_muxing_queue_size", "2048",
   "-fflags", "+genpts+discardcorrupt+igndts",
   "-avoid_negative_ts", "make_zero",
   "-start_at_zero",
   "-fps_mode", "cfr",
   "-async", "1",
   "-movflags", "+faststart+frag_keyframe",
   "-y",
   output_path]

/-- `ffmpeg_utils.get_ffmpeg_record_command` (lines 729-821): the HEAD
probe runs only for a truthy camera id other than `'None'`/`'unknown'`
(line 745); `head_ok` is its outcome, exceptions counting as failure.
With the probe successful the HLS-branch argv is returned, otherwise the
direct-RTSP argv. -/
def get_ffmpeg_record_command (rtsp_url output_path : String)
    (camera_id : Option String) (head_ok : Bool) : List String :=
  match camera_id with
  | some cid =>
      if cid != "" && cid != "None" && cid != "unknown" && head_ok
      then hls_record_command cid output_path
      else rtsp_record_command rtsp_url output_path
  | none => rtsp_record_command rtsp_url output_path

/-- One `.ts` file in a camera tmp directory: entry name and mtime. -/
structure TsFile where
  name : String
  mtime : Int
deriving DecidableEq, Repr

/-- Segment names referenced by the playlist
(`cleanup_old_segments` lines 795-803): the basename of every stripped
line that ends in `.ts`. -/
def activeSegments (content : List String) : List String :=
  content.filterMap (fun l =>
    let l := pyStrip l
    if pyEndsWith l ".ts" then some (basename l) else none)

/-- The deletion loop of `cleanup_old_segments` (lines 809-819): walk
the directory entries; an entry that is not referenced by the playlist
and whose mtime is more than 180 s old is removed, every other entry
survives.  Returns the surviving entries. -/
def deleteOldLoop (active : List String) (now : Int) : List TsFile → List TsFile
  | [] => []
  | f :: rest =>
      if !(active.contains f.name) && decide (now - f.mtime > 180)
      then deleteOldLoop active now rest
      else f :: deleteOldLoop active now rest

/-- `streaming.cleanup_old_segments` (lines 759-825) over the explicit
filesystem view: directory-existence flag, `.ts` entries, playlist
(`none` = missing; `some none` = present but the read raised, aborting
the deletion at line 806; `some (some ls)` = readable lines), the
`force` flag and the current time.  With the playlist missing and
segments present, `force` deletes everything and otherwise nothing is
touched (lines 781-792); with a readable playlist the deletion loop
runs. -/
def cleanup_old_segments (dirExists : Bool) (tsFiles : List TsFile)
    (playlist : Option (Option (List String))) (force : Bool) (now : Int) :
    List TsFile :=
  if !dirExists then tsFiles
  else
    match playlist with
    | none => if !tsFiles.isEmpty && force then [] else tsFiles
    | some none => tsFiles
    | some (some content) => deleteOldLoop (activeSegments content) now tsFiles

/-- Whether an argv contains the adjacent pair `flag value` (the way
ffmpeg reads an option and its argument). -/
def hasArgPair : List String → String → String → Bool
  | [], _, _ => false
  | [_], _, _ => false
  | a :: b :: rest, flag, value =>
      (a == flag && b == value) || hasArgPair (b :: rest) flag value

/-- C1: for every enabled camera, the launch sequence kills the old
encoder, clears `.ts` files, starts the encoder, records the session,
resets the restart counter, spawns the monitors and returns true, and
completes successfully for some input.  On the code it never does: the
kill call at line 202 passes the keyword `process_type`, which
`kill_ffmpeg_processes` does not accept, so every launch raises
`TypeError` and returns false. -/
theorem c1_launch_always_fails :
    bindKwargs kill_ffmpeg_processes_params start_streaming_kill_kwargs = false ∧
    ∀ (c : Camera) (env : LaunchEnv) (st : StreamTables),
      (start_streaming_process c env st).1 = false := by
  refine ⟨rfl, ?_⟩
  intro c env st
  simp [start_streaming_process, bindKwargs, kill_ffmpeg_processes_params,
    start_streaming_kill_kwargs]

/-! ### Helper lemmas on the association-list operations -/

theorem alookup_aset_self {α : Type} (l : List (String × α)) (k : String) (v : α) :
    alookup (aset l k v) k = some v := by
  simp [alookup, aset, List.find?]

theorem alookup_aerase_self {α : Type} (l : List (String × α)) (k : String) :
    alookup (aerase l k) k = none := by
  induction l with
  | nil => rfl
  | cons p tl ih =>
      by_cases h : p.1 = k
      · simpa [aerase, List.filter_cons, h] using ih
      · simp only [aerase, List.filter_cons] at ih ⊢
        simp only [alookup, List.find?] at ih ⊢
        simp [h, ih]

theorem aerase_as_filter {α : Type} (l : List (String × α)) (c : String) (ids : List String) :
    (aerase l c).filter (fun p => !(ids.contains p.1)) =
      l.filter (fun p => !((c :: ids).contains p.1)) := by
  simp only [aerase, List.filter_filter]
  apply List.filter_congr
  intro p _
  by_cases h : p.1 = c
  · simp [h, List.contains, List.elem_cons]
  · simp [h, List.contains, List.elem_cons]

/-! ### Theorems for claim C2 -/

/-- C2 counterexample: the claim says a camera with `enabled` not 1 never
obtains a Recording Session, `start_recording` refusing it.  The
streaming refusal holds for the disabled camera `cam3`, yet
`start_recording` - which never reads the `enabled` flag - starts a
recording for `cam3` and records the session. -/
theorem c2_disabled_recording_starts :
    (Camera.mk "cam3" "Side" "rtsp://x/3" 0).enabled ≠ 1 ∧
    get_or_start_streaming (Camera.mk "cam3" "Side" "rtsp://x/3" 0)
      (StreamTables.mk [] [] [] [] 0) [] = (false, []) ∧
    start_recording "cam3" "rtsp://x/3" "20261012120000"
        (RecTables.mk [] []) []
        (RecEnv.mk true (PyResult.ok 8589934592) true (fun _ => true) true true) 0
      = PyResult.ok (true,
          RecTables.mk
            [("cam3", RecInfo.mk (record_file_path "cam3" "20261012120000") "rtsp://x/3" true)]
            [("cam3", 0)],
          []) := by
  refine ⟨by decide, by decide, ?_⟩
  have hcheck : check_disk_space
      (RecEnv.mk true (PyResult.ok 8589934592) true (fun _ => true) true true) = true := by
    norm_num [check_disk_space, get_free_space, MIN_DISK_SPACE_GB]
  simp [start_recording, start_new_recording, hcheck, alookup, aset, aerase,
    get_free_space, MIN_DISK_SPACE_GB]

/-- C2 as amended: the streaming surfaces refuse a camera whose `enabled`
field is not 1 - `get_or_start_streaming` returns false without
enqueueing, and both restart paths refuse without re-enqueueing - but
`start_recording` consults no `enabled` flag and starts a recording for
any camera id, disabled ones included, whenever the disk and probe
checks pass. -/
theorem c2_disabled_refusals :
    (∀ (camera : Camera) (st : StreamTables) (q : List Camera),
        camera.enabled ≠ 1 → get_or_start_streaming camera st q = (false, q)) ∧
    (∀ (cfg : List Camera) (st : StreamTables) (q : List Camera) (c : String) (cam : Camera),
        get_camera_by_id cfg c = some cam → cam.enabled ≠ 1 →
          (restart_camera_stream cfg st q c).ok = false ∧
          (restart_camera_stream cfg st q c).queue = q) ∧
    (∀ (cfg : List Camera) (st : StreamTables) (q : List Camera) (c : String) (cam : Camera),
        get_camera_by_id cfg c = some cam → cam.enabled ≠ 1 →
          (restart_streaming cfg st q c).ok = false ∧
          (restart_streaming cfg st q c).queue = q) ∧
    (∀ (camera_id rtsp_url timestamp : String) (env : RecEnv) (now : Int),
        check_disk_space env = true →
        1024 * 1024 * 1024 ≤ get_free_space env.resolved_path_exists env.free_space_query →
        env.hls_head_ok = true → env.alive_after_1s = true →
        start_recording camera_id rtsp_url timestamp (RecTables.mk [] []) [] env now =
          PyResult.ok (true,
            RecTables.mk
              [(camera_id, RecInfo.mk (record_file_path camera_id timestamp) rtsp_url true)]
              [(camera_id, now)],
            [])) := by
  refine ⟨?_, ?_, ?_, ?_⟩
  · intro camera st q h
    simp [get_or_start_streaming, h]
  · intro cfg st q c cam hfind h
    simp [restart_camera_stream, hfind, h]
  · intro cfg st q c cam hfind h
    simp [restart_streaming, hfind, get_or_start_streaming, h]
  · intro camera_id rtsp_url timestamp env now hcheck hspace hhls halive
    have hnotlt : ¬ (get_free_space env.resolved_path_exists env.free_space_query <
        1024 * 1024 * 1024 * MIN_DISK_SPACE_GB) := by
      simp only [MIN_DISK_SPACE_GB, Nat.mul_one]
      omega
    simp [start_recording, start_new_recording, hcheck, hhls, halive, hnotlt,
      alookup, aset, aerase]

/-- Witness for `c2_disabled_refusals` at the disabled camera `cam3`. -/
theorem c2_disabled_refusals_witness :
    get_or_start_streaming (Camera.mk "cam3" "Side" "rtsp://x/3" 0)
      (StreamTables.mk [] [] [] [] 0) [] = (false, []) ∧
    (restart_camera_stream [Camera.mk "cam3" "Side" "rtsp://x/3" 0]
      (StreamTables.mk [] [] [] [] 0) [] "cam3").ok = false ∧
    (restart_streaming [Camera.mk "cam3" "Side" "rtsp://x/3" 0]
      (StreamTables.mk [] [] [] [] 0) [] "cam3").ok = false ∧
    start_recording "cam9" "rtsp://x/9" "20261012120000" (RecTables.mk [] []) []
        (RecEnv.mk true (PyResult.ok 8589934592) true (fun _ => true) true true) 7
      = PyResult.ok (true,
          RecTables.mk
            [("cam9", RecInfo.mk (record_file_path "cam9" "20261012120000") "rtsp://x/9" true)]
            [("cam9", 7)],
          []) := by
  refine ⟨c2_disabled_refusals.1 _ _ _ (by decide),
    (c2_disabled_refusals.2.1 _ _ _ _ (Camera.mk "cam3" "Side" "rtsp://x/3" 0)
      (by decide) (by decide)).1,
    (c2_disabled_refusals.2.2.1 _ _ _ _ (Camera.mk "cam3" "Side" "rtsp://x/3" 0)
      (by decide) (by decide)).1,
    c2_disabled_refusals.2.2.2 _ _ _ _ _
      (by norm_num [check_disk_space, get_free_space, MIN_DISK_SPACE_GB])
      (by norm_num [get_free_space]) rfl rfl⟩

/-! ### Theorems for claim C3 -/

theorem stop_recording_tables (c : String) (st : RecTables) (disk : Disk) (e : Bool) :
    (stop_recording c st disk e).tables =
      RecTables.mk (aerase st.recording_processes c) (aerase st.recording_start_times c) := by
  unfold stop_recording
  cases alookup st.recording_processes c with
  | none => rfl
  | some info =>
      cases e with
      | true => rfl
      | false =>
          simp only [Bool.false_eq_true, if_false]
          cases alookup disk info.file_path with
          | none => rfl
          | some size =>
              by_cases h1 : size < 1024 * 1024
              · simp [h1]
              · by_cases h2 : size > 0
                · simp [h1, h2]
                · simp [h1, h2]

theorem stop_all_fold_tables (fsErr : String → Bool) (ids : List String) :
    ∀ (b : Bool) (st : RecTables) (disk : Disk),
      ((ids.foldl (stopAllStep fsErr) (b, st, disk)).2.1) =
        RecTables.mk
          (st.recording_processes.filter (fun p => !(ids.contains p.1)))
          (st.recording_start_times.filter (fun p => !(ids.contains p.1))) := by
  induction ids with
  | nil =>
      intro b st disk
      simp
  | cons c tl ih =>
      intro b st disk
      simp only [List.foldl_cons, stopAllStep]
      rw [ih, stop_recording_tables]
      simp only
      rw [aerase_as_filter, aerase_as_filter]

/-- C3 counterexample: the claim requires `recording_start_times` to be
empty after every `stop_all_recordings`, for every prior state.  From the
prior state with no recording processes but a stale start-time entry,
`stop_all_recordings` returns immediately and the stale entry
survives. -/
theorem c3_orphan_start_time_survives :
    (stop_all_recordings (RecTables.mk [] [("cam1", 0)]) [] (fun _ => false)).2.1.recording_start_times
      = [("cam1", 0)] ∧
    [("cam1", (0 : Int))] ≠ [] := by
  exact ⟨rfl, by decide⟩

/-- C3 as amended: after `stop_all_streaming` the streaming session map
and its auxiliary tables are empty and the active count is 0, for every
prior state including states where terminating a session raised.  After
`stop_all_recordings`, `recording_processes` is empty and exactly the
start-time entries of cameras that had a recording process are removed;
an orphan start-time entry for a camera with no process survives. -/
theorem c3_stop_all_clears :
    (∀ (st : StreamTables) (termRaises : String → Bool),
        stop_all_streaming st termRaises =
          (true, StreamTables.mk [] [] [] [] 0)) ∧
    (∀ (st : RecTables) (disk : Disk) (fsErr : String → Bool),
        (stop_all_recordings st disk fsErr).2.1.recording_processes = [] ∧
        (stop_all_recordings st disk fsErr).2.1.recording_start_times =
          st.recording_start_times.filter
            (fun p => !((st.recording_processes.map (fun q => q.1)).contains p.1))) := by
  constructor
  · intro st termRaises
    rfl
  · intro st disk fsErr
    by_cases hempty : (st.recording_processes.map (fun q => q.1)).isEmpty
    · have hnil : st.recording_processes = [] := by
        cases h : st.recording_processes with
        | nil => rfl
        | cons a tl => rw [h] at hempty; simp [List.isEmpty] at hempty
      rw [stop_all_recordings, hempty]
      constructor
      · simpa using hnil
      · simp [hnil, List.contains]
    · simp only [Bool.not_eq_true] at hempty
      have hfold := stop_all_fold_tables fsErr (st.recording_processes.map (fun p => p.1))
        true st disk
      have hprocnil :
          st.recording_processes.filter
            (fun p => !((st.recording_processes.map (fun p => p.1)).contains p.1)) = [] := by
        rw [List.filter_eq_nil_iff]
        intro p hp
        have hmem : p.1 ∈ st.recording_processes.map (fun p => p.1) :=
          List.mem_map.mpr ⟨p, hp, rfl⟩
        simp [List.contains, List.elem_iff, hmem]
      simp only [stop_all_recordings, hempty, Bool.false_eq_true, if_false]
      rw [hfold]
      simp only [hprocnil] at hfold ⊢
      simp

/-! ### Theorems for claim C4 -/

theorem termCount_nil : termCount [] = 0 := rfl

theorem termCount_cons_term (c : String) (l : List ShedEvent) :
    termCount (ShedEvent.term c :: l) = termCount l + 1 := by
  simp [termCount, List.filter_cons, Nat.add_comm]

theorem termCount_cons_pause (n : Nat) (l : List ShedEvent) :
    termCount (ShedEvent.pause n :: l) = termCount l := by
  simp [termCount, List.filter_cons]

theorem shedLoop_termCount (resample : Nat → ℚ) (procs : List String) :
    ∀ count, termCount (shedLoop procs count resample) ≤ 5 - count := by
  induction procs with
  | nil => intro count; simp [shedLoop, termCount]
  | cons c rest ih =>
      intro count
      rw [shedLoop]
      by_cases h5 : count ≥ 5
      · simp [h5, termCount]
      · rw [if_neg h5]
        by_cases hlow : resample count < 70
        · rw [if_pos hlow]
          rw [termCount_cons_term, termCount_cons_pause, termCount_nil]
          omega
        · rw [if_neg hlow]
          rw [termCount_cons_term, termCount_cons_pause]
          have := ih (count + 1)
          omega

theorem shedLoop_paused (resample : Nat → ℚ) (procs : List String) :
    ∀ count, termsPaused (shedLoop procs count resample) = true := by
  induction procs with
  | nil => intro count; rfl
  | cons c rest ih =>
      intro count
      rw [shedLoop]
      by_cases h5 : count ≥ 5
      · simp [h5, termsPaused]
      · rw [if_neg h5]
        by_cases hlow : resample count < 70
        · rw [if_pos hlow]
          simp [termsPaused]
        · rw [if_neg hlow]
          simp [termsPaused, ih (count + 1)]

theorem shedLoop_early_stop (resample : Nat → ℚ) (procs : List String) :
    ∀ count j, count ≤ j → resample j < 70 →
      termCount (shedLoop procs count resample) ≤ j - count + 1 := by
  induction procs with
  | nil => intro count j _ _; simp [shedLoop, termCount]
  | cons c rest ih =>
      intro count j hle hj
      rw [shedLoop]
      by_cases h5 : count ≥ 5
      · simp [h5, termCount]
      · rw [if_neg h5]
        by_cases hlow : resample count < 70
        · rw [if_pos hlow]
          rw [termCount_cons_term, termCount_cons_pause, termCount_nil]
          omega
        · rw [if_neg hlow]
          rw [termCount_cons_term, termCount_cons_pause]
          have hne : count ≠ j := by
            intro hcj
            rw [hcj] at hlow
            exact hlow hj
          have : termCount (shedLoop rest (count + 1) resample) ≤ j - (count + 1) + 1 :=
            ih (count + 1) j (by omega) hj
          omega

/-- C4 counterexample: the claim allows a tear-down only when both CPU
and memory exceed 90 %.  With CPU sampled at 95 % and memory at 50 % -
at most 90 % - and six sessions, the monitor nevertheless tears down
five sessions. -/
theorem c4_shed_on_cpu_alone :
    ((50 : ℚ) ≤ 90) ∧
    monitor_system_resources_pass 95 50
        ["cam1", "cam2", "cam3", "cam4", "cam5", "cam6"] (fun _ => 80) =
      [ShedEvent.term "cam1", ShedEvent.pause 5, ShedEvent.term "cam2", ShedEvent.pause 5,
       ShedEvent.term "cam3", ShedEvent.pause 5, ShedEvent.term "cam4", ShedEvent.pause 5,
       ShedEvent.term "cam5", ShedEvent.pause 5] := by
  exact ⟨by norm_num, by decide⟩

/-- C4 as amended: the monitor sheds sessions when the sampled CPU or
the sampled memory exceeds 90 % and more than five sessions exist; with
CPU and memory both at or below 90 % it sheds nothing; a pass tears down
at most five sessions, every tear-down is followed by a pause of at
least 5 s, and once the CPU re-sampled after the (j+1)-st tear-down
falls below 70 % no further session is shed (at most j+1 in total). -/
theorem c4_shedding_bounds :
    (∀ (cpu mem : ℚ) (procs : List String) (resample : Nat → ℚ),
        cpu ≤ 90 → mem ≤ 90 →
        monitor_system_resources_pass cpu mem procs resample = []) ∧
    (∀ (cpu mem : ℚ) (procs : List String) (resample : Nat → ℚ),
        termCount (monitor_system_resources_pass cpu mem procs resample) ≤ 5) ∧
    (∀ (cpu mem : ℚ) (procs : List String) (resample : Nat → ℚ),
        termsPaused (monitor_system_resources_pass cpu mem procs resample) = true) ∧
    (∀ (cpu mem : ℚ) (procs : List String) (resample : Nat → ℚ) (j : Nat),
        resample j < 70 →
        termCount (monitor_system_resources_pass cpu mem procs resample) ≤ j + 1) := by
  refine ⟨?_, ?_, ?_, ?_⟩
  · intro cpu mem procs resample hcpu hmem
    rw [monitor_system_resources_pass, if_neg]
    push_neg
    exact ⟨hcpu, hmem⟩
  · intro cpu mem procs resample
    rw [monitor_system_resources_pass]
    by_cases h : cpu > 90 ∨ mem > 90
    · rw [if_pos h]
      by_cases hn : procs.length > 5
      · rw [if_pos hn]
        have := shedLoop_termCount resample procs 0
        omega
      · rw [if_neg hn]; simp [termCount]
    · rw [if_neg h]; simp [termCount]
  · intro cpu mem procs resample
    rw [monitor_system_resources_pass]
    by_cases h : cpu > 90 ∨ mem > 90
    · rw [if_pos h]
      by_cases hn : procs.length > 5
      · rw [if_pos hn]
        exact shedLoop_paused resample procs 0
      · rw [if_neg hn]; rfl
    · rw [if_neg h]; rfl
  · intro cpu mem procs resample j hj
    rw [monitor_system_resources_pass]
    by_cases h : cpu > 90 ∨ mem > 90
    · rw [if_pos h]
      by_cases hn : procs.length > 5
      · rw [if_pos hn]
        have := shedLoop_early_stop resample procs 0 j (Nat.zero_le j) hj
        omega
      · rw [if_neg hn]; simp [termCount]
    · rw [if_neg h]; simp [termCount]

/-- Witness for `c4_shedding_bounds` at concrete samples and sessions. -/
theorem c4_shedding_bounds_witness :
    monitor_system_resources_pass 50 50 ["cam1", "cam2", "cam3", "cam4", "cam5", "cam6"]
        (fun _ => 80) = [] ∧
    termCount (monitor_system_resources_pass 95 95
        ["cam1", "cam2", "cam3", "cam4", "cam5", "cam6"] (fun _ => 80)) ≤ 5 ∧
    termsPaused (monitor_system_resources_pass 95 95
        ["cam1", "cam2", "cam3", "cam4", "cam5", "cam6"] (fun _ => 80)) = true ∧
    termCount (monitor_system_resources_pass 95 95
        ["cam1", "cam2", "cam3", "cam4", "cam5", "cam6"] (fun _ => 60)) ≤ 1 := by
  refine ⟨c4_shedding_bounds.1 50 50 _ _ (by norm_num) (by norm_num),
    c4_shedding_bounds.2.1 95 95 _ _,
    c4_shedding_bounds.2.2.1 95 95 _ _,
    c4_shedding_bounds.2.2.2 95 95 _ _ 0 (by norm_num)⟩

/-! ### Theorems for claim C5 -/

theorem restart_streaming_counts (cfg : List Camera) (st : StreamTables)
    (q : List Camera) (c : String) :
    (restart_streaming cfg st q c).tables.restart_counts =
      aset st.restart_counts c ((alookup st.restart_counts c).getD 0 + 1) := by
  unfold restart_streaming
  cases get_camera_by_id cfg c <;> dsimp only <;> split <;> rfl

theorem restart_streaming_slept (cfg : List Camera) (st : StreamTables)
    (q : List Camera) (c : String) :
    (restart_streaming cfg st q c).slept =
      (if (alookup st.restart_counts c).getD 0 + 1 > MAX_RESTART_COUNT
       then [min (RESTART_COOLDOWN * ((alookup st.restart_counts c).getD 0 + 1
                    - MAX_RESTART_COUNT + 1)) 300]
       else []) := by
  unfold restart_streaming
  cases get_camera_by_id cfg c <;> rfl

theorem cleanup_counts_none (st : StreamTables) (c : String) :
    alookup (cleanup_camera_resources st c).restart_counts c = none := by
  unfold cleanup_camera_resources
  exact alookup_aerase_self _ c

theorem restart_camera_stream_tables (cfg : List Camera) (st : StreamTables)
    (q : List Camera) (c : String) :
    (restart_camera_stream cfg st q c).tables = (restart_camera_stream_state st c).1 := by
  unfold restart_camera_stream
  cases get_camera_by_id cfg c with
  | none => rfl
  | some cam =>
      dsimp only
      split <;> rfl

theorem restart_camera_stream_slept_eq (cfg : List Camera) (st : StreamTables)
    (q : List Camera) (c : String) :
    (restart_camera_stream cfg st q c).slept = (restart_camera_stream_state st c).2 := by
  unfold restart_camera_stream
  cases get_camera_by_id cfg c with
  | none => rfl
  | some cam =>
      dsimp only
      split <;> rfl

theorem rcs_state_slept (st : StreamTables) (c : String) :
    (restart_camera_stream_state st c).2 =
      (if (alookup st.restart_counts c).getD 0 + 1 > MAX_RESTART_COUNT
       then [RESTART_COOLDOWN * 2, 1] else [1]) := by
  unfold restart_camera_stream_state
  by_cases h5 : (alookup st.restart_counts c).getD 0 + 1 > MAX_RESTART_COUNT <;>
    simp [h5]

theorem rcs_state_counts (st : StreamTables) (c : String)
    (hc : st.streaming_processes.contains c = false) :
    (restart_camera_stream_state st c).1.restart_counts =
      (if (alookup st.restart_counts c).getD 0 + 1 > MAX_RESTART_COUNT
       then aset (aset st.restart_counts c ((alookup st.restart_counts c).getD 0 + 1)) c 1
       else aset st.restart_counts c ((alookup st.restart_counts c).getD 0 + 1)) := by
  have hc' : ¬ (c ∈ st.streaming_processes) := by simpa using hc
  unfold restart_camera_stream_state
  by_cases h5 : (alookup st.restart_counts c).getD 0 + 1 > MAX_RESTART_COUNT <;>
    simp [h5, hc']

theorem rcs_state_counts_live (st : StreamTables) (c : String)
    (hc : st.streaming_processes.contains c = true) :
    alookup (restart_camera_stream_state st c).1.restart_counts c = none := by
  have hc' : c ∈ st.streaming_processes := by simpa using hc
  unfold restart_camera_stream_state
  by_cases h5 : (alookup st.restart_counts c).getD 0 + 1 > MAX_RESTART_COUNT <;>
    simp [h5, hc', cleanup_counts_none]

/-- C5 counterexample: the claim says that whenever the incremented
count exceeds `MAX_RESTART_COUNT` the restart path sleeps the escalated
cooldown and then resets the counter to 1 before re-enqueueing.  On
`restart_streaming` with a prior count of 5, the path sleeps 60 s and
re-enqueues the camera, but the ledger afterwards reads 6, not 1. -/
theorem c5_streaming_restart_no_reset :
    (restart_streaming [Camera.mk "cam1" "Front" "rtsp://x/1" 1]
        (StreamTables.mk [] [] [] [("cam1", 5)] 0) [] "cam1").slept = [60] ∧
    alookup (restart_streaming [Camera.mk "cam1" "Front" "rtsp://x/1" 1]
        (StreamTables.mk [] [] [] [("cam1", 5)] 0) [] "cam1").tables.restart_counts "cam1"
      = some 6 ∧
    (restart_streaming [Camera.mk "cam1" "Front" "rtsp://x/1" 1]
        (StreamTables.mk [] [] [] [("cam1", 5)] 0) [] "cam1").queue
      = [Camera.mk "cam1" "Front" "rtsp://x/1" 1] ∧
    (6 : Nat) ≠ 1 := by
  refine ⟨by decide, by decide, by decide, by decide⟩

/-- C5 as amended: every restart request increments the restart ledger
entry.  On `restart_streaming`, when the incremented count exceeds
`MAX_RESTART_COUNT` the path sleeps `RESTART_COOLDOWN * (count - max + 1)`
capped at 300 s but leaves the counter at the incremented value; at or
below the max it sleeps no cooldown.  On `restart_camera_stream`, when
the incremented count exceeds the max the path sleeps a fixed
`RESTART_COOLDOWN * 2` = 60 s and resets the counter to 1 before
re-enqueueing; and when the camera still holds a live session the
resource cleanup deletes the ledger entry outright. -/
theorem c5_restart_ledger :
    (∀ (cfg : List Camera) (st : StreamTables) (q : List Camera) (c : String) (k : Nat),
        (alookup st.restart_counts c).getD 0 = k →
        alookup (restart_streaming cfg st q c).tables.restart_counts c = some (k + 1)) ∧
    (∀ (cfg : List Camera) (st : StreamTables) (q : List Camera) (c : String) (k : Nat),
        (alookup st.restart_counts c).getD 0 = k → k + 1 > MAX_RESTART_COUNT →
        (restart_streaming cfg st q c).slept =
          [min (RESTART_COOLDOWN * (k + 1 - MAX_RESTART_COUNT + 1)) 300]) ∧
    (∀ (cfg : List Camera) (st : StreamTables) (q : List Camera) (c : String) (k : Nat),
        (alookup st.restart_counts c).getD 0 = k → k + 1 ≤ MAX_RESTART_COUNT →
        (restart_streaming cfg st q c).slept = []) ∧
    (∀ (cfg : List Camera) (st : StreamTables) (q : List Camera) (c : String) (k : Nat),
        (alookup st.restart_counts c).getD 0 = k → k + 1 > MAX_RESTART_COUNT →
        st.streaming_processes.contains c = false →
        (restart_camera_stream cfg st q c).slept = [RESTART_COOLDOWN * 2, 1] ∧
        alookup (restart_camera_stream cfg st q c).tables.restart_counts c = some 1) ∧
    (∀ (cfg : List Camera) (st : StreamTables) (q : List Camera) (c : String),
        st.streaming_processes.contains c = true →
        alookup (restart_camera_stream cfg st q c).tables.restart_counts c = none) := by
  refine ⟨?_, ?_, ?_, ?_, ?_⟩
  · intro cfg st q c k hk
    rw [restart_streaming_counts, hk, alookup_aset_self]
  · intro cfg st q c k hk h5
    rw [restart_streaming_slept, hk, if_pos h5]
  · intro cfg st q c k hk h5
    have h5' : ¬ (k + 1 > MAX_RESTART_COUNT) := by omega
    rw [restart_streaming_slept, hk, if_neg h5']
  · intro cfg st q c k hk h5 hc
    constructor
    · rw [restart_camera_stream_slept_eq, rcs_state_slept, hk, if_pos h5]
    · rw [restart_camera_stream_tables, rcs_state_counts st c hc, hk, if_pos h5,
        alookup_aset_self]
  · intro cfg st q c hc
    rw [restart_camera_stream_tables]
    exact rcs_state_counts_live st c hc

/-- Witness for `c5_restart_ledger` at a ledger holding count 5. -/
theorem c5_restart_ledger_witness :
    alookup ((restart_streaming [] (StreamTables.mk [] [] [] [("cam1", 5)] 0)
        [] "cam1").tables.restart_counts) "cam1" = some (5 + 1) ∧
    (restart_streaming [] (StreamTables.mk [] [] [] [("cam1", 5)] 0) [] "cam1").slept =
      [min (RESTART_COOLDOWN * (5 + 1 - MAX_RESTART_COUNT + 1)) 300] ∧
    (restart_streaming [] (StreamTables.mk [] [] [] [("cam1", 2)] 0) [] "cam1").slept = [] ∧
    (restart_camera_stream [] (StreamTables.mk [] [] [] [("cam1", 5)] 0) [] "cam1").slept =
      [RESTART_COOLDOWN * 2, 1] ∧
    alookup ((restart_camera_stream [] (StreamTables.mk [] [] [] [("cam1", 5)] 0)
        [] "cam1").tables.restart_counts) "cam1" = some 1 ∧
    alookup ((restart_camera_stream [] (StreamTables.mk ["cam1"] [] [] [("cam1", 1)] 3)
        [] "cam1").tables.restart_counts) "cam1" = none := by
  refine ⟨c5_restart_ledger.1 [] _ [] "cam1" 5 (by decide),
    c5_restart_ledger.2.1 [] _ [] "cam1" 5 (by decide) (by decide),
    c5_restart_ledger.2.2.1 [] _ [] "cam1" 2 (by decide) (by decide),
    (c5_restart_ledger.2.2.2.1 [] _ [] "cam1" 5 (by decide) (by decide) (by decide)).1,
    (c5_restart_ledger.2.2.2.1 [] _ [] "cam1" 5 (by decide) (by decide) (by decide)).2,
    c5_restart_ledger.2.2.2.2 [] _ [] "cam1" (by decide)⟩

/-! ### Theorems for claim C6 -/

theorem stop_recording_small (camera_id : String) (st : RecTables) (disk : Disk)
    (info : RecInfo) (size : Nat)
    (hinfo : alookup st.recording_processes camera_id = some info)
    (hsize : alookup disk info.file_path = some size) (h : size < 1024 * 1024) :
    stop_recording camera_id st disk false =
      ⟨true,
       ⟨aerase st.recording_processes camera_id, aerase st.recording_start_times camera_id⟩,
       aerase disk info.file_path, Disposal.deletedIncomplete⟩ := by
  simp only [stop_recording, hinfo, hsize]
  simp [h]

theorem stop_recording_large (camera_id : String) (st : RecTables) (disk : Disk)
    (info : RecInfo) (size : Nat)
    (hinfo : alookup st.recording_processes camera_id = some info)
    (hsize : alookup disk info.file_path = some size) (h : ¬ size < 1024 * 1024) :
    stop_recording camera_id st disk false =
      ⟨true,
       ⟨aerase st.recording_processes camera_id, aerase st.recording_start_times camera_id⟩,
       disk, Disposal.finalized⟩ := by
  have h0 : size > 0 := by omega
  simp only [stop_recording, hinfo, hsize]
  simp [h, h0]

theorem stop_recording_missing (camera_id : String) (st : RecTables) (disk : Disk)
    (info : RecInfo)
    (hinfo : alookup st.recording_processes camera_id = some info)
    (hsize : alookup disk info.file_path = none) :
    stop_recording camera_id st disk false =
      ⟨true,
       ⟨aerase st.recording_processes camera_id, aerase st.recording_start_times camera_id⟩,
       disk, Disposal.missing⟩ := by
  simp only [stop_recording, hinfo, hsize]
  simp

/-- C6: for every recording session, `stop_recording` pops the session -
both table entries - terminates the child, and disposes of the output
file by size: a file of size 0 is deleted, any file below 1 MiB is
deleted as incomplete, and a file of at least 1 MiB is remuxed in place
by `finalize_recording`; consequently the stopped output file is still
on disk after the stop only if its size is at least 1 MiB. -/
theorem c6_stop_recording_disposal
    (camera_id : String) (st : RecTables) (disk : Disk) (info : RecInfo)
    (hinfo : alookup st.recording_processes camera_id = some info) :
    alookup (stop_recording camera_id st disk false).tables.recording_processes camera_id
      = none ∧
    alookup (stop_recording camera_id st disk false).tables.recording_start_times camera_id
      = none ∧
    (∀ size, alookup disk info.file_path = some size →
      (size = 0 →
        (stop_recording camera_id st disk false).disposal = Disposal.deletedIncomplete ∧
        alookup (stop_recording camera_id st disk false).disk info.file_path = none) ∧
      (size < 1024 * 1024 →
        (stop_recording camera_id st disk false).disposal = Disposal.deletedIncomplete ∧
        alookup (stop_recording camera_id st disk false).disk info.file_path = none) ∧
      (1024 * 1024 ≤ size →
        (stop_recording camera_id st disk false).disposal = Disposal.finalized ∧
        alookup (stop_recording camera_id st disk false).disk info.file_path = some size)) ∧
    (∀ s, alookup (stop_recording camera_id st disk false).disk info.file_path = some s →
      1024 * 1024 ≤ s) := by
  have htab := stop_recording_tables camera_id st disk false
  refine ⟨?_, ?_, ?_, ?_⟩
  · rw [htab]; exact alookup_aerase_self _ _
  · rw [htab]; exact alookup_aerase_self _ _
  · intro size hsize
    refine ⟨?_, ?_, ?_⟩
    · intro h0
      have h : size < 1024 * 1024 := by omega
      rw [stop_recording_small camera_id st disk info size hinfo hsize h]
      exact ⟨rfl, alookup_aerase_self disk info.file_path⟩
    · intro h
      rw [stop_recording_small camera_id st disk info size hinfo hsize h]
      exact ⟨rfl, alookup_aerase_self disk info.file_path⟩
    · intro h
      have h' : ¬ size < 1024 * 1024 := by omega
      rw [stop_recording_large camera_id st disk info size hinfo hsize h']
      exact ⟨rfl, hsize⟩
  · intro s hs
    cases hsize : alookup disk info.file_path with
    | none =>
        rw [stop_recording_missing camera_id st disk info hinfo hsize] at hs
        rw [hsize] at hs
        cases hs
    | some size =>
        by_cases h : size < 1024 * 1024
        · rw [stop_recording_small camera_id st disk info size hinfo hsize h] at hs
          rw [alookup_aerase_self] at hs
          cases hs
        · rw [stop_recording_large camera_id st disk info size hinfo hsize h] at hs
          rw [hsize] at hs
          cases hs
          omega

/-- Witness for `c6_stop_recording_disposal` on a 2 MiB recording. -/
theorem c6_stop_recording_disposal_witness :
    alookup ((stop_recording "cam1"
        (RecTables.mk [("cam1", RecInfo.mk "f.mp4" "rtsp://x/1" false)] [("cam1", 0)])
        [("f.mp4", 2097152)] false).tables.recording_processes) "cam1" = none ∧
    (stop_recording "cam1"
        (RecTables.mk [("cam1", RecInfo.mk "f.mp4" "rtsp://x/1" false)] [("cam1", 0)])
        [("f.mp4", 2097152)] false).disposal = Disposal.finalized ∧
    alookup ((stop_recording "cam1"
        (RecTables.mk [("cam1", RecInfo.mk "f.mp4" "rtsp://x/1" false)] [("cam1", 0)])
        [("f.mp4", 2097152)] false).disk) "f.mp4" = some 2097152 := by
  have h := c6_stop_recording_disposal "cam1"
    (RecTables.mk [("cam1", RecInfo.mk "f.mp4" "rtsp://x/1" false)] [("cam1", 0)])
    [("f.mp4", 2097152)] (RecInfo.mk "f.mp4" "rtsp://x/1" false) (by decide)
  exact ⟨h.1, ((h.2.2.1 2097152 (by decide)).2.2 (by decide)).1,
    ((h.2.2.1 2097152 (by decide)).2.2 (by decide)).2⟩

/-! ### Theorems for claims C7 and C8 -/

theorem hasArgPair_head (flag value : String) (rest : List String) :
    hasArgPair (flag :: value :: rest) flag value = true := by
  simp [hasArgPair]

theorem hasArgPair_tail (a : String) (rest : List String) (flag value : String)
    (h : hasArgPair rest flag value = true) :
    hasArgPair (a :: rest) flag value = true := by
  match rest with
  | [] => simp [hasArgPair] at h
  | b :: tl => simp [hasArgPair, h]

/-- C7 counterexample: the claim says that with the HLS playlist
reachable the recording argv uses stream copy as the video codec.  For
camera `cam1` with the probe succeeding, the argv contains no `copy`
token at all: the output video codec is the hardware encoder
`h264_nvenc`, fed from the HLS URL. -/
theorem c7_hls_branch_reencodes :
    "copy" ∉ get_ffmpeg_record_command "rtsp://x/1" "out.mp4" (some "cam1") true ∧
    hasArgPair (get_ffmpeg_record_command "rtsp://x/1" "out.mp4" (some "cam1") true)
      "-c:v" "h264_nvenc" = true ∧
    hasArgPair (get_ffmpeg_record_command "rtsp://x/1" "out.mp4" (some "cam1") true)
      "-i" (hls_url_for "cam1") = true := by
  refine ⟨by decide, by decide, by decide⟩

/-- C8 counterexample: the claim says every camera launch builds an HLS
argv with a 1-second target segment length.  The launch sequence passes
`segment_time = 2`, so the argv for camera `cam1` carries
`-hls_time 2` and no `-hls_time 1`. -/
theorem c8_launch_segment_time_is_two :
    hasArgPair (launch_hls_command (Camera.mk "cam1" "Front" "rtsp://x/1" 1))
      "-hls_time" "1" = false ∧
    hasArgPair (launch_hls_command (Camera.mk "cam1" "Front" "rtsp://x/1" 1))
      "-hls_time" "2" = true := by
  refine ⟨by decide, by decide⟩

set_option maxHeartbeats 1000000 in
/-- C7 as amended: the recording-command builder probes the local HLS
playlist; with the probe successful it returns an argv whose input is
the HLS URL, re-encoded with the hardware encoder `h264_nvenc` (not
stream copy); otherwise it returns an argv whose input is the RTSP URL
with hardware decode and encode; both argvs carry
`-movflags +faststart+frag_keyframe`, and neither carries a `copy`
token. -/
theorem c7_record_command_codecs :
    (∀ (rtsp_url output_path cid : String),
        cid ≠ "" → cid ≠ "None" → cid ≠ "unknown" →
        hasArgPair (get_ffmpeg_record_command rtsp_url output_path (some cid) true)
          "-i" (hls_url_for cid) = true ∧
        hasArgPair (get_ffmpeg_record_command rtsp_url output_path (some cid) true)
          "-c:v" "h264_nvenc" = true ∧
        hasArgPair (get_ffmpeg_record_command rtsp_url output_path (some cid) true)
          "-movflags" "+faststart+frag_keyframe" = true) ∧
    (∀ (rtsp_url output_path : String) (cid : Option String),
        hasArgPair (get_ffmpeg_record_command rtsp_url output_path cid false)
          "-i" rtsp_url = true ∧
        hasArgPair (get_ffmpeg_record_command rtsp_url output_path cid false)
          "-hwaccel" "cuda" = true ∧
        hasArgPair (get_ffmpeg_record_command rtsp_url output_path cid false)
          "-c:v" "h264_nvenc" = true ∧
        hasArgPair (get_ffmpeg_record_command rtsp_url output_path cid false)
          "-movflags" "+faststart+frag_keyframe" = true) ∧
    "copy" ∉ get_ffmpeg_record_command "rtsp://x/1" "out.mp4" (some "cam1") true ∧
    "copy" ∉ get_ffmpeg_record_command "rtsp://x/1" "out.mp4" (some "cam1") false := by
  refine ⟨?_, ?_, by decide, by decide⟩
  · intro rtsp_url output_path cid h1 h2 h3
    have b1 : (cid != "") = true := by simp [h1]
    have b2 : (cid != "None") = true := by simp [h2]
    have b3 : (cid != "unknown") = true := by simp [h3]
    refine ⟨?_, ?_, ?_⟩ <;>
      (simp only [get_ffmpeg_record_command, b1, b2, b3, Bool.true_and, Bool.and_true,
         if_true, hls_record_command];
       repeat (first | exact hasArgPair_head _ _ _ | apply hasArgPair_tail))
  · intro rtsp_url output_path cid
    cases cid with
    | none =>
        refine ⟨?_, ?_, ?_, ?_⟩ <;>
          (simp only [get_ffmpeg_record_command, rtsp_record_command];
           repeat (first | exact hasArgPair_head _ _ _ | apply hasArgPair_tail))
    | some c =>
        refine ⟨?_, ?_, ?_, ?_⟩ <;>
          (simp only [get_ffmpeg_record_command, Bool.and_false, Bool.false_eq_true,
             if_false, rtsp_record_command];
           repeat (first | exact hasArgPair_head _ _ _ | apply hasArgPair_tail))

/-- Witness for `c7_record_command_codecs` at camera `cam9`. -/
theorem c7_record_command_codecs_witness :
    hasArgPair (get_ffmpeg_record_command "rtsp://x/9" "o.mp4" (some "cam9") true)
      "-i" (hls_url_for "cam9") = true ∧
    hasArgPair (get_ffmpeg_record_command "rtsp://x/9" "o.mp4" (some "cam9") false)
      "-i" "rtsp://x/9" = true := by
  exact ⟨(c7_record_command_codecs.1 "rtsp://x/9" "o.mp4" "cam9"
      (by decide) (by decide) (by decide)).1,
    (c7_record_command_codecs.2.1 "rtsp://x/9" "o.mp4" (some "cam9")).1⟩

set_option maxHeartbeats 1000000 in
/-- C8 as amended: the HLS encoder argv built by the launch sequence
uses TCP transport, a 2-second target segment length (`-hls_time 2`,
the launch passing `segment_time = 2`), a playlist bounded to 48
segments, the flags `delete_segments+independent_segments+split_by_time`,
keyframes forced at the 2 s segment boundaries, wall-clock timestamp
rewriting, and the segment filename pattern `<base>-%05d.ts`. -/
theorem c8_launch_hls_flags :
    (∀ (camera : Camera),
        hasArgPair (launch_hls_command camera) "-rtsp_transport" "tcp" = true ∧
        hasArgPair (launch_hls_command camera) "-hls_time" "2" = true ∧
        hasArgPair (launch_hls_command camera) "-hls_list_size" "48" = true ∧
        hasArgPair (launch_hls_command camera) "-hls_flags"
          "delete_segments+independent_segments+split_by_time" = true ∧
        hasArgPair (launch_hls_command camera) "-force_key_frames"
          "expr:gte(t,n_forced*2)" = true ∧
        hasArgPair (launch_hls_command camera) "-use_wallclock_as_timestamps" "1" = true) ∧
    hasArgPair (launch_hls_command (Camera.mk "cam1" "Front" "rtsp://x/1" 1))
      "-hls_segment_filename"
      "D:\\laragon\\www\\system\\cam\\tmp\\cam1\\cam1-%05d.ts" = true := by
  refine ⟨?_, by decide⟩
  intro camera
  refine ⟨?_, ?_, ?_, ?_, ?_, ?_⟩ <;>
    (simp only [launch_hls_command, get_hls_streaming_command];
     repeat (first | exact hasArgPair_head _ _ _ | apply hasArgPair_tail))

/-! ### Theorems for claim C9 -/

theorem deleteOldLoop_mem (active : List String) (now : Int)
    (tsFiles : List TsFile) (f : TsFile) :
    f ∈ deleteOldLoop active now tsFiles ↔
      f ∈ tsFiles ∧ (f.name ∈ active ∨ now - f.mtime ≤ 180) := by
  induction tsFiles with
  | nil => simp [deleteOldLoop]
  | cons g rest ih =>
      rw [deleteOldLoop]
      by_cases hcond : (!(active.contains g.name) && decide (now - g.mtime > 180)) = true
      · rw [if_pos hcond]
        have hg : ¬ (g.name ∈ active ∨ now - g.mtime ≤ 180) := by
          simp only [Bool.and_eq_true, Bool.not_eq_true', decide_eq_true_eq] at hcond
          rcases hcond with ⟨hc1, hc2⟩
          push_neg
          refine ⟨?_, by omega⟩
          intro hmem
          have hct : active.contains g.name = true := by
            simp [List.contains, List.elem_iff, hmem]
          rw [hc1] at hct
          cases hct
        rw [ih]
        simp only [List.mem_cons]
        constructor
        · rintro ⟨hf, hp⟩
          exact ⟨Or.inr hf, hp⟩
        · rintro ⟨hor, hp⟩
          cases hor with
          | inl he => rw [he] at hp; exact absurd hp hg
          | inr hm => exact ⟨hm, hp⟩
      · rw [if_neg hcond]
        have hg : g.name ∈ active ∨ now - g.mtime ≤ 180 := by
          by_cases hmem : g.name ∈ active
          · exact Or.inl hmem
          · right
            have hcf : active.contains g.name = false := by
              simp [List.contains, List.elem_iff, hmem]
            simp only [Bool.and_eq_true, Bool.not_eq_true', decide_eq_true_eq, not_and,
              hcf] at hcond
            have := hcond trivial
            omega
        simp only [List.mem_cons, ih]
        constructor
        · rintro (he | ⟨hf, hp⟩)
          · refine ⟨Or.inl he, ?_⟩
            rw [he]
            exact hg
          · exact ⟨Or.inr hf, hp⟩
        · rintro ⟨hor, hp⟩
          cases hor with
          | inl he => exact Or.inl he
          | inr hm => exact Or.inr ⟨hm, hp⟩

/-- C9: for a camera whose playlist exists and is readable,
non-forced segment cleanup keeps exactly the `.ts` entries that are
referenced by the playlist or at most 180 s old; equivalently it deletes
exactly the entries that are both unreferenced and older than 180 s,
leaving every other entry in place. -/
theorem c9_cleanup_exact (tsFiles : List TsFile) (content : List String)
    (now : Int) (f : TsFile) :
    f ∈ cleanup_old_segments true tsFiles (some (some content)) false now ↔
      f ∈ tsFiles ∧ (f.name ∈ activeSegments content ∨ now - f.mtime ≤ 180) := by
  have hred : cleanup_old_segments true tsFiles (some (some content)) false now =
      deleteOldLoop (activeSegments content) now tsFiles := by
    rfl
  rw [hred]
  exact deleteOldLoop_mem _ _ _ _

/-- Witness for `c9_cleanup_exact`: with a playlist referencing only
segment 3, the stale unreferenced segment 1 is deleted while the young
segment 2 and the referenced segment 3 survive. -/
theorem c9_cleanup_exact_witness :
    TsFile.mk "cam1-00002.ts" 500 ∈ cleanup_old_segments true
      [TsFile.mk "cam1-00001.ts" 0, TsFile.mk "cam1-00002.ts" 500, TsFile.mk "cam1-00003.ts" 0]
      (some (some ["#EXTM3U", "cam1-00003.ts"])) false 600 ∧
    TsFile.mk "cam1-00003.ts" 0 ∈ cleanup_old_segments true
      [TsFile.mk "cam1-00001.ts" 0, TsFile.mk "cam1-00002.ts" 500, TsFile.mk "cam1-00003.ts" 0]
      (some (some ["#EXTM3U", "cam1-00003.ts"])) false 600 ∧
    TsFile.mk "cam1-00001.ts" 0 ∉ cleanup_old_segments true
      [TsFile.mk "cam1-00001.ts" 0, TsFile.mk "cam1-00002.ts" 500, TsFile.mk "cam1-00003.ts" 0]
      (some (some ["#EXTM3U", "cam1-00003.ts"])) false 600 := by
  refine ⟨(c9_cleanup_exact _ _ _ _).mpr ⟨by decide, by decide⟩,
    (c9_cleanup_exact _ _ _ _).mpr ⟨by decide, by decide⟩, ?_⟩
  intro hmem
  exact absurd ((c9_cleanup_exact _ _ _ _).mp hmem).2 (by decide)

/-! ### Theorems for claim C10 -/

/-- C10: if the free-space query raises, `get_free_space` returns
exactly 1 GiB (1024^3 bytes); because `start_recording` raises only when
the available bytes are strictly below `MIN_DISK_SPACE_GB` GiB and
`check_disk_space` refuses only strictly below `MIN_DISK_SPACE_GB`, a
failed space query is treated as sufficient space: `check_disk_space`
accepts and `start_recording` never takes the insufficient-space
raise. -/
theorem c10_failed_query_admits (env : RecEnv)
    (hq : env.free_space_query = PyResult.exn) :
    get_free_space env.resolved_path_exists env.free_space_query = 1024 * 1024 * 1024 ∧
    check_disk_space env = true ∧
    (∀ (camera_id rtsp_url timestamp : String) (st : RecTables) (disk : Disk) (now : Int),
      start_recording camera_id rtsp_url timestamp st disk env now ≠ PyResult.exn) := by
  have hfree : get_free_space env.resolved_path_exists env.free_space_query
      = 1024 * 1024 * 1024 := by
    rw [hq]
    rfl
  refine ⟨hfree, ?_, ?_⟩
  · simp only [check_disk_space, hfree, MIN_DISK_SPACE_GB]
    norm_num
  · intro camera_id rtsp_url timestamp st disk now
    simp only [start_recording, hfree, MIN_DISK_SPACE_GB, Nat.mul_one]
    norm_num
    exact fun h => PyResult.noConfusion h

/-- Witness for `c10_failed_query_admits` on a concrete environment
whose space query raises. -/
theorem c10_failed_query_admits_witness :
    get_free_space true PyResult.exn = 1024 * 1024 * 1024 ∧
    check_disk_space (RecEnv.mk true PyResult.exn true (fun _ => true) true true) = true ∧
    start_recording "cam1" "rtsp://x/1" "20261012120000" (RecTables.mk [] []) []
      (RecEnv.mk true PyResult.exn true (fun _ => true) true true) 0 ≠ PyResult.exn := by
  have h := c10_failed_query_admits
    (RecEnv.mk true PyResult.exn true (fun _ => true) true true) rfl
  exact ⟨h.1, h.2.1, h.2.2 _ _ _ _ _ _⟩
